import Mathlib

/-!
Shallow embedding of the review data model in src/reviews/models.py
(a Django model layer for a systematic-literature-review tool).

Modelling conventions:
* database tables are passed explicitly as Lean lists; a Django
  `Model.objects.filter(...)` call becomes a `List.filter` over such a list;
* foreign keys are ids (`Nat`), nullable foreign keys are `Option Nat`;
  the one exception is `QualityAssessment.answer`, embedded by value
  (`Option QualityAnswer`) because `Article.get_score` dereferences the
  joined answer row directly;
* `DateTimeField` values are `Int` timestamps; the current time is an
  explicit argument of `Review.save`;
* `FloatField` weights are modelled as exact rationals `ℚ`;
* single-character Django choice codes are one-character `String`s, so
  that a default-constructed model instance can carry the blank code "";
* Python code that raises is embedded as an `Option`-returning function,
  `none` standing for the raised exception.
-/

/-- Does the first character list begin with the second one?  Helper for
the Python substring test `pat in s`. -/
def charsBeginWith : List Char → List Char → Bool
  | _, [] => true
  | [], _ :: _ => false
  | c :: cs, p :: ps => c == p && charsBeginWith cs ps

/-- Does the first character list contain the second as a contiguous run?
Helper for the Python substring test `pat in s`. -/
def charsContain : List Char → List Char → Bool
  | [], pat => charsBeginWith [] pat
  | c :: cs, pat => charsBeginWith (c :: cs) pat || charsContain cs pat

/-- Python substring membership `pat in s` on strings. -/
def strContains (s pat : String) : Bool :=
  charsContain s.toList pat.toList

/-- `django.contrib.auth.models.User`: only the primary key is relevant to
this model layer. -/
structure User where
  id : Nat
deriving Repr, DecidableEq

/-- `Source` (models.py lines 8-25). -/
structure Source where
  id : Nat
  name : String
  url : String
  is_default : Bool
deriving Repr, DecidableEq

/-- `Source.set_url` (models.py lines 21-25): prefix with "http://" when
the value contains neither "http://" nor "https://" and is non-empty. -/
def Source.set_url (s : Source) (value : String) : Source :=
  if ¬ strContains value "http://" ∧ ¬ strContains value "https://" ∧ 0 < value.length then
    { s with url := "http://" ++ value }
  else
    { s with url := value }

/-- `Review` (models.py lines 28-134), fields only.  `author` and
`co_authors` are embedded `User` rows; `sources` holds `Source` ids. -/
structure Review where
  id : Nat
  name : String
  title : String
  description : String
  author : User
  create_date : Int
  last_update : Int
  objective : String
  sources : List Nat
  status : String
  co_authors : List User
  quality_assessment_cutoff_score : ℚ
  study_selection_strategy : String
  quality_assessment_strategy : String
  data_extraction_strategy : String
deriving Repr, DecidableEq

/-- `Review.save` (models.py lines 65-67): unconditionally stamps
`last_update` with the current time (`datetime.datetime.now()`), then
persists; the current time is the explicit `now` argument. -/
def Review.save (r : Review) (now : Int) : Review :=
  { r with last_update := now }

/-- `Question` (models.py lines 137-158).  `review` is an optional foreign
key id so that the default-constructed `Question()` instance (no review
assigned yet) is representable. -/
structure Question where
  review : Option Nat
  question : String
  population : String
  intervention : String
  comparison : String
  outcome : String
  question_type : String
deriving Repr, DecidableEq

/-- The default-constructed `Question()` instance built by
`Review.get_main_question` when no main question exists: every field is
unset (blank string / no foreign key). -/
def Question.empty : Question :=
  { review := none, question := "", population := "", intervention := ""
    comparison := "", outcome := "", question_type := "" }

/-- `Review.get_main_question` (models.py lines 73-78): first `Question`
of this review with question type M, or a default `Question()` when
the lookup raises `DoesNotExist`. -/
def Review.get_main_question (r : Review) (questions : List Question) : Question :=
  match (questions.filter (fun q => q.review == some r.id && q.question_type == "M")).head? with
  | some q => q
  | none => Question.empty

/-- `Review.is_author_or_coauthor` (models.py lines 92-98). -/
def Review.is_author_or_coauthor (r : Review) (user : User) : Bool :=
  if user.id == r.author.id then true
  else r.co_authors.any (fun co_author => user.id == co_author.id)

/-- `SelectionCriteria` (models.py lines 161-183). -/
structure SelectionCriteria where
  review : Nat
  criteria_type : String
  description : String
deriving Repr, DecidableEq

/-- `SelectionCriteria.save` (models.py lines 181-183): silently truncates
`description` to its first 200 characters (the Python slice
`self.description[:200]`) before persisting. -/
def SelectionCriteria.save (c : SelectionCriteria) : SelectionCriteria :=
  { c with description := String.mk (c.description.toList.take 200) }

/-- `Article` (models.py lines 195-238), fields only.  `source` and
`search_session` are nullable foreign keys. -/
structure Article where
  id : Nat
  review : Nat
  bibtex_key : String
  title : String
  author : String
  journal : String
  year : String
  source : Option Nat
  pages : String
  volume : String
  abstract : String
  document_type : String
  author_keywords : String
  note : String
  search_session : Option Nat
  status : String
deriving Repr, DecidableEq

/-- `Review.get_source_articles` (models.py lines 107-111): all articles of
the review, filtered further by source id when one is given; the Django
lookup `source__id=source_id` matches only rows whose nullable source is
present with that id. -/
def Review.get_source_articles (r : Review) (articles : List Article) (source_id : Option Nat) : List Article :=
  match source_id with
  | none => articles.filter (fun a => a.review == r.id)
  | some sid => articles.filter (fun a => a.review == r.id && a.source == some sid)

/-- `Keyword` (models.py lines 241-259).  `synonym_of` is a nullable
self-referential foreign key id. -/
structure Keyword where
  id : Nat
  review : Nat
  description : String
  synonym_of : Option Nat
deriving Repr, DecidableEq

/-- `Keyword.save` (models.py lines 254-256): silently truncates
`description` to its first 200 characters (the Python slice
`self.description[:200]`) before persisting. -/
def Keyword.save (k : Keyword) : Keyword :=
  { k with description := String.mk (k.description.toList.take 200) }

/-- `Keyword.get_synonyms` (models.py lines 258-259): keywords of the same
review whose `synonym_of` id equals the id of this keyword. -/
def Keyword.get_synonyms (k : Keyword) (keywords : List Keyword) : List Keyword :=
  keywords.filter (fun x => x.review == k.review && x.synonym_of == some k.id)

/-- `QualityAnswer` (models.py lines 262-275). -/
structure QualityAnswer where
  review : Nat
  description : String
  weight : ℚ
deriving Repr, DecidableEq

/-- `QualityQuestion` (models.py lines 278-287). -/
structure QualityQuestion where
  review : Nat
  description : String
deriving Repr, DecidableEq

/-- `QualityAssessment` (models.py lines 290-298).  The nullable `answer`
foreign key is embedded by value (the joined `QualityAnswer` row), since
`Article.get_score` dereferences it directly. -/
structure QualityAssessment where
  user : Option Nat
  article : Nat
  question : Nat
  answer : Option QualityAnswer
  date : Int
deriving Repr, DecidableEq

/-- The accumulation loop of `Article.get_score` (models.py lines 232-233):
`score += quality_assessment.answer.weight`.  When `answer` is the null
foreign key the Python attribute access `None.weight` raises
`AttributeError`, embedded as `none`. -/
def scoreLoop (score : ℚ) : List QualityAssessment → Option ℚ
  | [] => some score
  | qa :: rest =>
    match qa.answer with
    | none => none
    | some ans => scoreLoop (score + ans.weight) rest

/-- `Article.get_score` (models.py lines 229-234): starts from 0.0 and adds
the answer weight of every quality assessment of this article; raises
(`none`) on an assessment whose answer is absent. -/
def Article.get_score (a : Article) (assessments : List QualityAssessment) : Option ℚ :=
  scoreLoop 0 (assessments.filter (fun qa => qa.article == a.id))

/-- Weight of the highest-weight element of a weight list, i.e. the
descending-order first-row lookup of models.py line 128: `none` models
the `DoesNotExist` raised on an empty table. -/
def highestWeight : List ℚ → Option ℚ
  | [] => none
  | w :: ws =>
    match highestWeight ws with
    | none => some w
    | some m => some (max w m)

/-- `Review.calculate_quality_assessment_max_score` (models.py lines
125-134): count of the quality questions of this review times the highest
answer weight; the surrounding bare `except` turns the `DoesNotExist` of
the empty-answer lookup into 0.0, and a zero question count also yields
0.0 through the truthiness test on line 129. -/
def Review.calculate_quality_assessment_max_score
    (r : Review) (questions : List QualityQuestion) (answers : List QualityAnswer) : ℚ :=
  let questions_count := (questions.filter (fun q => q.review == r.id)).length
  match highestWeight ((answers.filter (fun a => a.review == r.id)).map QualityAnswer.weight) with
  | none => 0
  | some w => if questions_count ≠ 0 then (questions_count : ℚ) * w else 0

/-- `DataExtractionField` (models.py lines 300-326). -/
structure DataExtractionField where
  id : Nat
  review : Nat
  description : String
  field_type : String
deriving Repr, DecidableEq

/-- `DataExtractionField.SELECT_ONE_FIELD` (models.py line 306). -/
def DataExtractionField.SELECT_ONE_FIELD : String := "O"

/-- `DataExtractionField.SELECT_MANY_FIELD` (models.py line 307). -/
def DataExtractionField.SELECT_MANY_FIELD : String := "M"

/-- `DataExtractionField.is_select_field` (models.py lines 325-326). -/
def DataExtractionField.is_select_field (f : DataExtractionField) : Bool :=
  f.field_type == DataExtractionField.SELECT_ONE_FIELD ||
    f.field_type == DataExtractionField.SELECT_MANY_FIELD

/-! ## Spec-side reference definitions and concrete table rows -/

/-- Reference definition following the amended URL rule: empty values stay
empty, values already containing "http://" or "https://" anywhere are kept
unchanged, every other value gets the "http://" prefix. -/
def set_url_contains_rule (v : String) : String :=
  if v = "" then ""
  else if strContains v "http://" = true ∨ strContains v "https://" = true then v
  else "http://" ++ v

/-- A non-empty string has positive length. -/
lemma length_pos_of_ne_empty (s : String) (h : s ≠ "") : 0 < s.length := by
  cases s with
  | mk data =>
    cases data with
    | nil => exact absurd rfl h
    | cons c cs => simp [String.length]

/-- A concrete Source row used in counterexamples. -/
def sourceACM : Source :=
  { id := 1, name := "ACM", url := "", is_default := false }

/-! ## Claims -/

/-- Claim C1, counterexample: on the value "xhttp://y", which is non-empty
and does not start with "http://" or "https://" but contains "http://" in
the middle, `set_url` keeps the value unchanged instead of prefixing
"http://" as the claim requires. -/
theorem C1_counterexample :
    (sourceACM.set_url "xhttp://y").url = "xhttp://y" ∧
    "xhttp://y" ≠ "" ∧
    charsBeginWith "xhttp://y".toList "http://".toList = false ∧
    charsBeginWith "xhttp://y".toList "https://".toList = false ∧
    (sourceACM.set_url "xhttp://y").url ≠ "http://" ++ "xhttp://y" := by
  decide

/-- Claim C1, amended: `set_source_url(s, v)` sets `s.url` to "" if `v` is
empty, leaves `s.url` equal to `v` if `v` already contains "http://" or
"https://" anywhere in it, and otherwise sets `s.url` to "http://" + `v`. -/
theorem C1_set_url_contains_rule_correct (s : Source) (v : String) :
    (s.set_url v).url = set_url_contains_rule v := by
  by_cases hv : v = ""
  · subst hv
    have hcond : ¬(¬ strContains "" "http://" = true ∧
        ¬ strContains "" "https://" = true ∧ 0 < String.length "") := by
      decide
    simp only [Source.set_url, if_neg hcond]
    rfl
  · by_cases h1 : strContains v "http://" = true
    · have hcond : ¬(¬ strContains v "http://" = true ∧
          ¬ strContains v "https://" = true ∧ 0 < String.length v) := by
        intro hc
        exact hc.1 h1
      simp only [Source.set_url, set_url_contains_rule, if_neg hcond, if_neg hv,
        if_pos (Or.inl h1)]
    · by_cases h2 : strContains v "https://" = true
      · have hcond : ¬(¬ strContains v "http://" = true ∧
            ¬ strContains v "https://" = true ∧ 0 < String.length v) := by
          intro hc
          exact hc.2.1 h2
        simp only [Source.set_url, set_url_contains_rule, if_neg hcond, if_neg hv,
          if_pos (Or.inr h2)]
      · have hor : ¬(strContains v "http://" = true ∨ strContains v "https://" = true) := by
          rintro (h | h)
          · exact h1 h
          · exact h2 h
        have hcond : ¬ strContains v "http://" = true ∧
            ¬ strContains v "https://" = true ∧ 0 < v.length :=
          ⟨h1, h2, length_pos_of_ne_empty v hv⟩
        simp only [Source.set_url, set_url_contains_rule, if_pos hcond, if_neg hv, if_neg hor]

/-- Claim C7: `is_author_or_coauthor(review, user)` is true exactly when the
id of the user equals the id of the author or of some member of the co-author
collection. -/
theorem C7_is_author_or_coauthor_correct (r : Review) (u : User) :
    r.is_author_or_coauthor u = true ↔
      (u.id = r.author.id ∨ ∃ c ∈ r.co_authors, u.id = c.id) := by
  unfold Review.is_author_or_coauthor
  by_cases h : u.id = r.author.id
  · simp [h]
  · simp [h, List.any_eq_true]

/-- Claim C7, witness: a user whose id matches a co-author is recognised. -/
theorem C7_witness :
    (Review.mk 1 "slr" "SLR" "" (User.mk 1) 0 0 "" [] "U" [User.mk 2, User.mk 3] 0 "S" "S" "S").is_author_or_coauthor
      (User.mk 3) = true := by
  exact (C7_is_author_or_coauthor_correct _ _).mpr
    (Or.inr ⟨User.mk 3, by simp, rfl⟩)

/-- Claim C9: `is_select_field` is true exactly when `field_type` is
Select-One ("O") or Select-Many ("M"), and false for every other type. -/
theorem C9_is_select_field_correct (f : DataExtractionField) :
    f.is_select_field = true ↔ (f.field_type = "O" ∨ f.field_type = "M") := by
  unfold DataExtractionField.is_select_field
  unfold DataExtractionField.SELECT_ONE_FIELD DataExtractionField.SELECT_MANY_FIELD
  simp [Bool.or_eq_true]

/-- Claim C9, witness: a Select-One field is a select field. -/
theorem C9_witness :
    (DataExtractionField.mk 1 1 "population" "O").is_select_field = true := by
  exact (C9_is_select_field_correct _).mpr (Or.inl rfl)

/-- Claim C8: `get_synonyms` returns exactly the keywords of the same
review whose `synonym_of` id equals the id of this keyword; membership never
depends on descriptions, so no keyword of another review can appear even
when descriptions collide. -/
theorem C8_get_synonyms_correct (keywords : List Keyword) (k x : Keyword) :
    x ∈ k.get_synonyms keywords ↔
      (x ∈ keywords ∧ x.review = k.review ∧ x.synonym_of = some k.id) := by
  unfold Keyword.get_synonyms
  simp [List.mem_filter, Bool.and_eq_true, and_assoc]

/-- Claim C8, witness: a same-review synonym row is returned, while a
colliding-description row of another review is not. -/
theorem C8_witness :
    (Keyword.mk 3 1 "software" (some 1)) ∈
      (Keyword.mk 1 1 "program" none).get_synonyms
        [Keyword.mk 3 1 "software" (some 1), Keyword.mk 4 2 "software" (some 1)] ∧
    (Keyword.mk 4 2 "software" (some 1)) ∉
      (Keyword.mk 1 1 "program" none).get_synonyms
        [Keyword.mk 3 1 "software" (some 1), Keyword.mk 4 2 "software" (some 1)] := by
  constructor
  · exact (C8_get_synonyms_correct _ _ _).mpr ⟨by simp, rfl, rfl⟩
  · intro hmem
    have h := (C8_get_synonyms_correct
      [Keyword.mk 3 1 "software" (some 1), Keyword.mk 4 2 "software" (some 1)]
      (Keyword.mk 1 1 "program" none) (Keyword.mk 4 2 "software" (some 1))).mp hmem
    exact absurd h.2.1 (by decide)

/-- Claim C10: with a source id, `get_source_articles` returns exactly the
articles of the review whose nullable source is present with that id; an
article without a source is never in a source-filtered result, and shows
up only in the unfiltered call. -/
theorem C10_get_source_articles_correct
    (r : Review) (articles : List Article) (sid : Nat) (a : Article) :
    (a ∈ r.get_source_articles articles (some sid) ↔
      (a ∈ articles ∧ a.review = r.id ∧ a.source = some sid)) ∧
    (a.source = none → a ∉ r.get_source_articles articles (some sid)) ∧
    (a ∈ articles → a.review = r.id → a ∈ r.get_source_articles articles none) := by
  refine ⟨?_, ?_, ?_⟩
  · unfold Review.get_source_articles
    simp [List.mem_filter, Bool.and_eq_true, and_assoc]
  · intro hnone hmem
    have h : a.source = some sid := by
      have := hmem
      unfold Review.get_source_articles at this
      simp [List.mem_filter, Bool.and_eq_true] at this
      exact this.2.2
    rw [hnone] at h
    exact Option.noConfusion h
  · intro hmem hrev
    unfold Review.get_source_articles
    simp [List.mem_filter, hmem, hrev]

/-- Claim C10, witness: for a review with id 1 and a table holding one
sourced and one sourceless article, the source-filtered call returns the
sourced article, excludes the sourceless one, and the unfiltered call
includes the sourceless one. -/
theorem C10_witness :
    (Article.mk 1 1 "a" "" "" "" "" (some 7) "" "" "" "" "" "" none "U") ∈
      (Review.mk 1 "slr" "SLR" "" (User.mk 1) 0 0 "" [] "U" [] 0 "S" "S" "S").get_source_articles
        [Article.mk 1 1 "a" "" "" "" "" (some 7) "" "" "" "" "" "" none "U",
         Article.mk 2 1 "b" "" "" "" "" none "" "" "" "" "" "" none "U"] (some 7) ∧
    (Article.mk 2 1 "b" "" "" "" "" none "" "" "" "" "" "" none "U") ∉
      (Review.mk 1 "slr" "SLR" "" (User.mk 1) 0 0 "" [] "U" [] 0 "S" "S" "S").get_source_articles
        [Article.mk 1 1 "a" "" "" "" "" (some 7) "" "" "" "" "" "" none "U",
         Article.mk 2 1 "b" "" "" "" "" none "" "" "" "" "" "" none "U"] (some 7) ∧
    (Article.mk 2 1 "b" "" "" "" "" none "" "" "" "" "" "" none "U") ∈
      (Review.mk 1 "slr" "SLR" "" (User.mk 1) 0 0 "" [] "U" [] 0 "S" "S" "S").get_source_articles
        [Article.mk 1 1 "a" "" "" "" "" (some 7) "" "" "" "" "" "" none "U",
         Article.mk 2 1 "b" "" "" "" "" none "" "" "" "" "" "" none "U"] none := by
  refine ⟨?_, ?_, ?_⟩
  · exact (C10_get_source_articles_correct _ _ 7 _).1.mpr ⟨by simp, rfl, rfl⟩
  · exact (C10_get_source_articles_correct _ _ 7 _).2.1 rfl
  · exact (C10_get_source_articles_correct _ _ 7 _).2.2 (by simp) rfl

/-- Claim C6: saving a SelectionCriteria or a Keyword silently persists
only the first 200 characters of its description; in particular any
description of at least 200 characters is stored with length exactly
200. -/
theorem C6_description_truncated (c : SelectionCriteria) (k : Keyword) :
    c.save.description = c.description.take 200 ∧
    k.save.description = k.description.take 200 ∧
    (200 ≤ c.description.length → c.save.description.length = 200) ∧
    (200 ≤ k.description.length → k.save.description.length = 200) := by
  refine ⟨?_, ?_, ?_, ?_⟩
  · rw [String.take_eq]
    rfl
  · rw [String.take_eq]
    rfl
  · intro h
    show (c.description.toList.take 200).length = 200
    rw [List.length_take]
    exact Nat.min_eq_left h
  · intro h
    show (k.description.toList.take 200).length = 200
    rw [List.length_take]
    exact Nat.min_eq_left h

/-- A 250-character description, used to witness the truncation claim. -/
def longDescription : String := String.mk (List.replicate 250 'a')

/-- Claim C6, witness: a 250-character description is persisted as its
first 200 characters, with length exactly 200, for both entity kinds. -/
theorem C6_witness :
    (SelectionCriteria.mk 1 "I" longDescription).save.description =
      longDescription.take 200 ∧
    (Keyword.mk 1 1 longDescription none).save.description =
      longDescription.take 200 ∧
    (SelectionCriteria.mk 1 "I" longDescription).save.description.length = 200 ∧
    (Keyword.mk 1 1 longDescription none).save.description.length = 200 := by
  have h := C6_description_truncated
    (SelectionCriteria.mk 1 "I" longDescription) (Keyword.mk 1 1 longDescription none)
  have hlen : 200 ≤ longDescription.length := by
    show 200 ≤ (List.replicate 250 'a').length
    rw [List.length_replicate]
    decide
  exact ⟨h.1, h.2.1, h.2.2.1 hlen, h.2.2.2 hlen⟩

/-- Claim C4, counterexample: a caller may store a future time in
`last_update` before saving; saving at the (earlier) current time 4 then
leaves `last_update` strictly below its value 5 before the save, so the
claimed monotonicity fails. -/
theorem C4_counterexample :
    ((Review.mk 1 "slr" "SLR" "" (User.mk 1) 0 5 "" [] "U" [] 0 "S" "S" "S").save 4).last_update = 4 ∧
    ¬ ((Review.mk 1 "slr" "SLR" "" (User.mk 1) 0 5 "" [] "U" [] 0 "S" "S" "S").save 4).last_update ≥
      (Review.mk 1 "slr" "SLR" "" (User.mk 1) 0 5 "" [] "U" [] 0 "S" "S" "S").last_update := by
  decide

/-- Claim C4, amended: saving a Review stamps `last_update` to the current
time, overriding any caller-supplied value; consequently, whenever the
value held before the save is not later than the current time, the saved
`last_update` is greater than or equal to it. -/
theorem C4_save_stamps_last_update (r : Review) (now : Int) :
    (r.save now).last_update = now ∧
    (r.last_update ≤ now → (r.save now).last_update ≥ r.last_update) := by
  refine ⟨rfl, ?_⟩
  intro h
  exact h

/-- Claim C4, witness: saving a review last updated at time 3 at current
time 7 stamps 7, which is at least 3. -/
theorem C4_witness :
    ((Review.mk 1 "slr" "SLR" "" (User.mk 1) 0 3 "" [] "U" [] 0 "S" "S" "S").save 7).last_update = 7 ∧
    ((Review.mk 1 "slr" "SLR" "" (User.mk 1) 0 3 "" [] "U" [] 0 "S" "S" "S").save 7).last_update ≥
      (Review.mk 1 "slr" "SLR" "" (User.mk 1) 0 3 "" [] "U" [] 0 "S" "S" "S").last_update := by
  have h := C4_save_stamps_last_update
    (Review.mk 1 "slr" "SLR" "" (User.mk 1) 0 3 "" [] "U" [] 0 "S" "S" "S") 7
  exact ⟨h.1, h.2 (by decide)⟩

/-- Claim C5: when the review has no Question of type Main,
`get_main_question` returns the default `Question()` sentinel instead of
raising; when a Main question exists, it returns a Main question of that
review taken from the table. -/
theorem C5_get_main_question_correct (r : Review) (questions : List Question) :
    ((∀ q ∈ questions, ¬(q.review = some r.id ∧ q.question_type = "M")) →
      r.get_main_question questions = Question.empty) ∧
    ((∃ q ∈ questions, q.review = some r.id ∧ q.question_type = "M") →
      r.get_main_question questions ∈ questions ∧
      (r.get_main_question questions).review = some r.id ∧
      (r.get_main_question questions).question_type = "M") := by
  constructor
  · intro hnone
    have hfil : questions.filter (fun q => q.review == some r.id && q.question_type == "M") = [] := by
      rw [List.filter_eq_nil_iff]
      intro q hq
      simp only [Bool.and_eq_true, beq_iff_eq, not_and]
      intro h1 h2
      exact hnone q hq ⟨h1, h2⟩
    unfold Review.get_main_question
    rw [hfil]
    rfl
  · rintro ⟨q, hq, hrev, htype⟩
    have hne : questions.filter (fun q => q.review == some r.id && q.question_type == "M") ≠ [] := by
      intro hfil
      rw [List.filter_eq_nil_iff] at hfil
      exact hfil q hq (by simp [hrev, htype])
    obtain ⟨q0, hq0⟩ : ∃ q0,
        (questions.filter (fun q => q.review == some r.id && q.question_type == "M")).head? = some q0 := by
      cases hl : questions.filter (fun q => q.review == some r.id && q.question_type == "M") with
      | nil => exact absurd hl hne
      | cons x xs => exact ⟨x, rfl⟩
    have hmem := List.mem_filter.mp (List.mem_of_mem_head? hq0)
    have hprops := hmem.2
    simp only [Bool.and_eq_true, beq_iff_eq] at hprops
    unfold Review.get_main_question
    rw [hq0]
    exact ⟨hmem.1, hprops.1, hprops.2⟩

/-- Claim C5, witness: with an empty Question table the sentinel comes
back, and with one Main question of the review that question comes back. -/
theorem C5_witness :
    (Review.mk 1 "slr" "SLR" "" (User.mk 1) 0 0 "" [] "U" [] 0 "S" "S" "S").get_main_question []
      = Question.empty ∧
    ((Review.mk 1 "slr" "SLR" "" (User.mk 1) 0 0 "" [] "U" [] 0 "S" "S" "S").get_main_question
        [Question.mk (some 1) "why" "p" "i" "c" "o" "M"] ∈
      [Question.mk (some 1) "why" "p" "i" "c" "o" "M"] ∧
     ((Review.mk 1 "slr" "SLR" "" (User.mk 1) 0 0 "" [] "U" [] 0 "S" "S" "S").get_main_question
        [Question.mk (some 1) "why" "p" "i" "c" "o" "M"]).review = some 1 ∧
     ((Review.mk 1 "slr" "SLR" "" (User.mk 1) 0 0 "" [] "U" [] 0 "S" "S" "S").get_main_question
        [Question.mk (some 1) "why" "p" "i" "c" "o" "M"]).question_type = "M") := by
  constructor
  · exact (C5_get_main_question_correct
      (Review.mk 1 "slr" "SLR" "" (User.mk 1) 0 0 "" [] "U" [] 0 "S" "S" "S") []).1
      (by intro q hq; cases hq)
  · exact (C5_get_main_question_correct
      (Review.mk 1 "slr" "SLR" "" (User.mk 1) 0 0 "" [] "U" [] 0 "S" "S" "S")
      [Question.mk (some 1) "why" "p" "i" "c" "o" "M"]).2
      ⟨Question.mk (some 1) "why" "p" "i" "c" "o" "M", by simp, rfl, rfl⟩

/-- Reference definition following the amended score rule: the sum of the
answer weights over the assessments of the article when every one of them has
an answer, and a raised exception (`none`) as soon as one answer is
absent. -/
def get_score_sum_rule (a : Article) (assessments : List QualityAssessment) : Option ℚ :=
  let relevant := assessments.filter (fun qa => qa.article == a.id)
  if relevant.all (fun qa => qa.answer.isSome) then
    some ((relevant.map (fun qa => (qa.answer.map QualityAnswer.weight).getD 0)).sum)
  else none

/-- The accumulation loop of `get_score` adds up the answer weights and
propagates the exception raised on an absent answer. -/
lemma scoreLoop_sum (l : List QualityAssessment) : ∀ acc : ℚ,
    scoreLoop acc l =
      if l.all (fun qa => qa.answer.isSome) then
        some (acc + (l.map (fun qa => (qa.answer.map QualityAnswer.weight).getD 0)).sum)
      else none := by
  induction l with
  | nil =>
    intro acc
    simp [scoreLoop]
  | cons qa rest ih =>
    intro acc
    cases h : qa.answer with
    | none => simp [scoreLoop, h]
    | some ans => simp [scoreLoop, h, ih, add_assoc]

/-- A concrete Article row used for the score claims. -/
def articleOne : Article :=
  Article.mk 1 1 "key" "" "" "" "" none "" "" "" "" "" "" none "U"

/-- A concrete QualityAssessment of article 1 carrying an answer of the
given weight. -/
def assessmentWeighted (w : ℚ) : QualityAssessment :=
  QualityAssessment.mk none 1 1 (some (QualityAnswer.mk 1 "ans" w)) 0

/-- Claim C2, counterexample: on an article with a single assessment whose
answer is absent, `get_score` raises (the attribute access
`quality_assessment.answer.weight` on the null foreign key, embedded as
`none`) instead of treating the assessment as contributing 0. -/
theorem C2_counterexample :
    articleOne.get_score [QualityAssessment.mk none 1 1 none 0] = none ∧
    articleOne.get_score [QualityAssessment.mk none 1 1 none 0] ≠ some 0 := by
  decide

/-- Claim C2, amended: `get_score` returns the sum of the answer weights
over the QualityAssessments of the article whenever every such assessment has
an answer — in particular `some 0` with zero assessments and `some (3/2)`
with answer weights 1, 1/2 and 0 — but raises on an assessment whose
answer is absent. -/
theorem C2_get_score_sum_rule_correct :
    (∀ (a : Article) (assessments : List QualityAssessment),
      a.get_score assessments = get_score_sum_rule a assessments) ∧
    articleOne.get_score [] = some 0 ∧
    articleOne.get_score
      [assessmentWeighted 1, assessmentWeighted (1/2), assessmentWeighted 0] = some (3/2) := by
  have hgen : ∀ (a : Article) (assessments : List QualityAssessment),
      a.get_score assessments = get_score_sum_rule a assessments := by
    intro a assessments
    unfold Article.get_score get_score_sum_rule
    rw [scoreLoop_sum]
    simp
  refine ⟨hgen, by decide, ?_⟩
  rw [hgen]
  simp only [get_score_sum_rule]
  norm_num [articleOne, assessmentWeighted]

/-- Reference definition following the max-score rule of the claim: the
count of the quality questions of the review times the highest weight among
its quality answers, and 0.0 when there is no answer row (so that the
empty-question and empty-answer cases both give 0.0, the question count
being a factor). -/
def max_score_rule (r : Review) (questions : List QualityQuestion) (answers : List QualityAnswer) : ℚ :=
  match highestWeight ((answers.filter (fun a => a.review == r.id)).map QualityAnswer.weight) with
  | none => 0
  | some w => ((questions.filter (fun q => q.review == r.id)).length : ℚ) * w

/-- A concrete Review row used for the max-score claim. -/
def reviewOne : Review :=
  Review.mk 1 "slr" "SLR" "" (User.mk 1) 0 0 "" [] "U" [] 0 "S" "S" "S"

/-- Three concrete QualityQuestion rows of review 1. -/
def threeQualityQuestions : List QualityQuestion :=
  [QualityQuestion.mk 1 "q1", QualityQuestion.mk 1 "q2", QualityQuestion.mk 1 "q3"]

/-- The suggested answer set of review 1, with weights 1, 1/2 and 0. -/
def suggestedAnswers : List QualityAnswer :=
  [QualityAnswer.mk 1 "Yes" 1, QualityAnswer.mk 1 "Partially" (1/2), QualityAnswer.mk 1 "No" 0]

/-- Claim C3: `calculate_quality_assessment_max_score` returns the count of
the QualityQuestions of the review times the highest weight among its
QualityAnswers, degrading to 0.0 when either collection is empty (the
empty-answer lookup raises `DoesNotExist`, absorbed by the bare `except`);
in particular 3 questions with weights 1, 1/2, 0 give 3, and an empty
question or answer collection gives 0. -/
theorem C3_max_score_correct :
    (∀ (r : Review) (questions : List QualityQuestion) (answers : List QualityAnswer),
      r.calculate_quality_assessment_max_score questions answers =
        max_score_rule r questions answers) ∧
    reviewOne.calculate_quality_assessment_max_score threeQualityQuestions suggestedAnswers = 3 ∧
    reviewOne.calculate_quality_assessment_max_score [] suggestedAnswers = 0 ∧
    reviewOne.calculate_quality_assessment_max_score threeQualityQuestions [] = 0 := by
  have hgen : ∀ (r : Review) (questions : List QualityQuestion) (answers : List QualityAnswer),
      r.calculate_quality_assessment_max_score questions answers =
        max_score_rule r questions answers := by
    intro r questions answers
    unfold Review.calculate_quality_assessment_max_score max_score_rule
    cases h : highestWeight ((answers.filter (fun a => a.review == r.id)).map QualityAnswer.weight) with
    | none => simp [h]
    | some w =>
      simp only [h]
      by_cases hq : (questions.filter (fun q => q.review == r.id)).length = 0
      · simp [hq]
      · simp [hq]
  have hmax1 : max ((1:ℚ)/2) 0 = 1/2 := max_eq_left (by norm_num)
  have hmax2 : max (1:ℚ) (1/2) = 1 := max_eq_left (by norm_num)
  refine ⟨hgen, ?_, ?_, ?_⟩
  · rw [hgen]
    simp only [max_score_rule]
    norm_num [reviewOne, threeQualityQuestions, suggestedAnswers, highestWeight, hmax1, hmax2]
  · rw [hgen]
    simp only [max_score_rule]
    norm_num [reviewOne, suggestedAnswers, highestWeight, hmax1, hmax2]
  · rw [hgen]
    simp only [max_score_rule]
    norm_num [reviewOne, threeQualityQuestions, highestWeight]

/-- Claim C1, witness: on the plain value "acm.org" the amended rule gives
the prefixed URL. -/
theorem C1_witness : (sourceACM.set_url "acm.org").url = "http://acm.org" := by
  rw [C1_set_url_contains_rule_correct sourceACM "acm.org"]
  decide

/-- Claim C2, witness: a single assessment with answer weight 1 scores
`some 1`. -/
theorem C2_witness : articleOne.get_score [assessmentWeighted 1] = some 1 := by
  rw [C2_get_score_sum_rule_correct.1 articleOne [assessmentWeighted 1]]
  norm_num [get_score_sum_rule, articleOne, assessmentWeighted]

/-- Claim C3, witness: one question and one answer of weight 1 give a
maximum score of 1. -/
theorem C3_witness :
    reviewOne.calculate_quality_assessment_max_score
      [QualityQuestion.mk 1 "q1"] [QualityAnswer.mk 1 "Yes" 1] = 1 := by
  rw [C3_max_score_correct.1]
  norm_num [max_score_rule, reviewOne, highestWeight]
